import Mathlib

/-!
# Verification of the `pubsub` package (WillYingling/pubsub)

A shallow embedding of the type-keyed publish/subscribe registry from
`pubsub.go`.  The package routes events by the *static type* chosen at the
call site: `PublishToScope[T]` looks up subscribers under the key
`var zero T` (a zero value of `T` stored in a `sync.Map` keyed by `any`),
and `SubscribeToScope[T]` registers an untyped channel under the same key,
spawning a `castAndForward` goroutine that asserts each incoming value back
to `T` and forwards it on the typed external channel.

The embedding models:
* a fragment of Go's type system (`GoType`) rich enough to distinguish
  concrete types, pointer types, interface types, and the non-hashable
  kinds (slices, maps, functions);
* Go interface values (`AnyVal`): either the nil interface or a pair of a
  concrete dynamic type and a payload;
* the zero-value-as-key trick (`zeroAny`), runtime hashability of a key
  (`hashableVal`), and the dynamic type assertion `val.(T)` (`typeAssert`);
* the scope registry as an association list keyed by `AnyVal`
  (`sync.Map` of type key to `sync.Map` of subscription id to endpoint),
  plus per-subscription lifecycle state (derived context cancelled,
  external channel closed);
* the operations `PublishToScope`, `SubscribeToScope`, the `unsub`
  closure, the effect of the caller's context firing, and the
  `castAndForward` teardown step, as sequential state transformers.

Goroutine scheduling is sequentialized: a publish is modelled by the list
of per-subscriber forwarding outcomes its fan-out produces, and teardown
by explicit steps (`parentCancel`, `forwarderObserveCancel`).
-/

namespace PubSub

mutual
/-- The fragment of Go's type system the package interacts with.
Struct types carry their field types (which determine comparability) and
their method names (which determine interface satisfaction); interface
types carry a name and their required method names. -/
inductive GoType where
  | intT : GoType
  | boolT : GoType
  | stringT : GoType
  | ptrT : GoType → GoType
  | chanT : GoType → GoType
  | sliceT : GoType → GoType
  | mapT : GoType → GoType → GoType
  | funcT : GoType
  | structT : String → GoTypeList → List String → GoType
  | interfaceT : String → List String → GoType

/-- A list of Go types (the field types of a struct). -/
inductive GoTypeList where
  | nil : GoTypeList
  | cons : GoType → GoTypeList → GoTypeList
end

deriving instance DecidableEq for GoType, GoTypeList
deriving instance Repr for GoType, GoTypeList

mutual
/-- Runtime representations of Go values, as stored inside an `any`.
Pointers, channels, slices, maps and functions are identified by an
abstract reference (`Nat`); `0` stands for the nil reference. -/
inductive Payload where
  | intV : Int → Payload
  | boolV : Bool → Payload
  | stringV : String → Payload
  | ptrV : Nat → Payload
  | chanV : Nat → Payload
  | sliceV : Nat → Payload
  | mapV : Nat → Payload
  | funcV : Nat → Payload
  | structV : PayloadList → Payload

/-- A list of payloads (the field values of a struct value). -/
inductive PayloadList where
  | nil : PayloadList
  | cons : Payload → PayloadList → PayloadList
end

deriving instance DecidableEq for Payload, PayloadList
deriving instance Repr for Payload, PayloadList

/-- A Go interface value (`any`): the nil interface, or a concrete dynamic
type together with its payload. -/
inductive AnyVal where
  | nilA : AnyVal
  | mk : GoType → Payload → AnyVal
deriving DecidableEq, Repr

/-- Whether a `GoType` is an interface type. -/
def isInterface : GoType → Bool
  | .interfaceT _ _ => true
  | _ => false

/-- The method names an interface type requires. -/
def ifaceMethods : GoType → List String
  | .interfaceT _ ms => ms
  | _ => []

/-- The method set of a concrete type (only struct types declare methods
in this model). -/
def methodSet : GoType → List String
  | .structT _ _ ms => ms
  | _ => []

/-- Whether concrete type `t` provides every method in `ms`
(Go interface satisfaction). -/
def hasMethods (t : GoType) (ms : List String) : Bool :=
  ms.all (fun m => (methodSet t).contains m)

mutual
/-- Go comparability of a type: slices, maps and functions are not
comparable (their values are unhashable as map keys); a struct is
comparable iff all of its field types are. -/
def comparable : GoType → Bool
  | .sliceT _ => false
  | .mapT _ _ => false
  | .funcT => false
  | .structT _ fs _ => comparableList fs
  | _ => true

/-- Comparability of every type in a list of field types. -/
def comparableList : GoTypeList → Bool
  | .nil => true
  | .cons t ts => comparable t && comparableList ts
end

mutual
/-- The zero payload of a concrete Go type (`var zero T`). -/
def zeroPayload : GoType → Payload
  | .intT => .intV 0
  | .boolT => .boolV false
  | .stringT => .stringV ""
  | .ptrT _ => .ptrV 0
  | .chanT _ => .chanV 0
  | .sliceT _ => .sliceV 0
  | .mapT _ _ => .mapV 0
  | .funcT => .funcV 0
  | .structT _ fs _ => .structV (zeroPayloadList fs)
  | .interfaceT _ _ => .structV .nil

/-- Zero payloads of a list of field types. -/
def zeroPayloadList : GoTypeList → PayloadList
  | .nil => .nil
  | .cons t ts => .cons (zeroPayload t) (zeroPayloadList ts)
end

/-- `var zero T` converted to `any`: the registry key for type `T`.
The zero value of an interface type is the nil interface, so every
interface type yields the key `AnyVal.nilA`; the zero value of a concrete
type carries its dynamic type. -/
def zeroAny (T : GoType) : AnyVal :=
  if isInterface T then .nilA else .mk T (zeroPayload T)

/-- Whether an `any` value may be hashed as a Go map key without
panicking: the nil interface always can; otherwise the dynamic type must
be comparable. -/
def hashableVal : AnyVal → Bool
  | .nilA => true
  | .mk t _ => comparable t

/-- Go's dynamic type assertion `v.(T)`: fails on the nil interface; for
an interface type `T` it succeeds iff the dynamic type implements `T`;
for a concrete `T` it succeeds iff the dynamic type is exactly `T`. -/
def typeAssert (T : GoType) (v : AnyVal) : Bool :=
  match v with
  | .nilA => false
  | .mk c _ => if isInterface T then hasMethods c (ifaceMethods T) else c == T

/-- `v` is a possible value of a variable of static type `T`: for an
interface type this includes the nil interface; for a concrete type the
dynamic type must be exactly `T`. -/
def hasType (T : GoType) (v : AnyVal) : Bool :=
  if isInterface T then v == .nilA || typeAssert T v else typeAssert T v

/-! ## The scope registry and subscription lifecycle state

`EventScope.subscribers` is a `sync.Map` from the type key (`zeroAny T`)
to an inner `sync.Map` from subscription id (`uuid.New()`, modelled by a
fresh `Nat`) to the subscription's untyped delivery endpoint.  The
registry is modelled as an association list from `AnyVal` keys to lists
of subscription ids; the endpoint itself is identified with its
subscription id.

Each subscription additionally has lifecycle state owned by its
`castAndForward` goroutine: whether the derived context
(`context.WithCancel(ctx)`) has been cancelled, and whether the external
typed channel has been closed (`defer close(out)`). -/

/-- Lifecycle record of one subscription: its declared type `T`, whether
its derived forwarding context is cancelled, and whether its external
typed channel has been closed by `castAndForward`. -/
structure SubRec where
  subType : GoType
  cancelled : Bool
  chClosed : Bool
deriving DecidableEq, Repr

/-- The state of one `EventScope` together with the lifecycle state of
every subscription created on it.  `registry` is the two-level
`sync.Map`; `subs` records each subscription id's lifecycle; `nextId`
supplies fresh subscription ids (the uuid generator). -/
structure ScopeState where
  registry : List (AnyVal × List Nat)
  subs : List (Nat × SubRec)
  nextId : Nat
deriving DecidableEq, Repr

/-- `NewEventScope()`: an empty registry, no subscriptions. -/
def newEventScope : ScopeState :=
  { registry := [], subs := [], nextId := 0 }

/-- `e.subscribers.Load(k)`: the subscriber set stored under key `k`, if
any.  (The caller must ensure `k` is hashable; `Load` itself panics on an
unhashable key, which the operations below check first.) -/
def lookupKey (k : AnyVal) : List (AnyVal × List Nat) → Option (List Nat)
  | [] => none
  | (k', l) :: r => if k' = k then some l else lookupKey k r

/-- `LoadOrStore(k, &sync.Map{})` followed by `subMap.Store(id, ch)`:
adds `id` to the subscriber set under `k`, creating the set if absent. -/
def insertReg (k : AnyVal) (id : Nat) :
    List (AnyVal × List Nat) → List (AnyVal × List Nat)
  | [] => [(k, [id])]
  | (k', l) :: r =>
      if k' = k then (k', id :: l) :: r else (k', l) :: insertReg k id r

/-- `subMap.Delete(id)` on the subscriber set under `k`: removes `id`
from that set; the (possibly now empty) set itself stays registered. -/
def removeReg (k : AnyVal) (id : Nat) :
    List (AnyVal × List Nat) → List (AnyVal × List Nat)
  | [] => []
  | (k', l) :: r =>
      if k' = k then (k', l.filter (fun i => i ≠ id)) :: r
      else (k', l) :: removeReg k id r

/-- The lifecycle record of subscription `id`, if it exists. -/
def lookupSub (id : Nat) : List (Nat × SubRec) → Option SubRec
  | [] => none
  | (i, sr) :: r => if i = id then some sr else lookupSub id r

/-- `cancel()` on subscription `id`'s derived context. -/
def setCancelled (id : Nat) : List (Nat × SubRec) → List (Nat × SubRec)
  | [] => []
  | (i, sr) :: r =>
      if i = id then (i, { sr with cancelled := true }) :: setCancelled id r
      else (i, sr) :: setCancelled id r

/-- The `castAndForward` goroutine of subscription `id` observing its
cancelled context: it returns, and `defer close(out)` closes the external
channel.  A no-op while the context is not cancelled. -/
def observeCancelClose (id : Nat) : List (Nat × SubRec) → List (Nat × SubRec)
  | [] => []
  | (i, sr) :: r =>
      if i = id ∧ sr.cancelled = true then
        (i, { sr with chClosed := true }) :: observeCancelClose id r
      else (i, sr) :: observeCancelClose id r

/-! ## The operations -/

/-- `SubscribeToScope[T](ctx, e)`.  Allocates a fresh id, then
`e.subscribers.LoadOrStore(zero, &sync.Map{})` — which panics while
hashing the key when `T`'s zero value is unhashable, before any store —
then registers the endpoint and starts `castAndForward` under a derived
cancellable context.  Returns the new subscription id (or the panic, as
`Except.error`) paired with the resulting scope state; on a panic the
state is exactly the input state, since the hash precedes every store. -/
def subscribeToScope (T : GoType) (s : ScopeState) :
    Except String Nat × ScopeState :=
  let id := s.nextId
  let zero := zeroAny T
  if hashableVal zero then
    (.ok id,
     { registry := insertReg zero id s.registry,
       subs := (id, { subType := T, cancelled := false, chClosed := false }) :: s.subs,
       nextId := id + 1 })
  else
    (.error "hash of unhashable type", s)

/-- What `castAndForward[T]` does with one value arriving on subscription
`id`'s internal endpoint. -/
inductive Forwarded where
  /-- `out <- typedVal`: the value was forwarded on the external typed
  channel. -/
  | value : AnyVal → Forwarded
  /-- `panic("mismatched type")`: the type assertion `val.(T)` failed. -/
  | panicMismatch : Forwarded
  /-- The `<-ctx.Done()` branch: the derived context was already
  cancelled (or the subscription record is gone), so the forwarding
  goroutine is no longer receiving and the delivery is dropped. -/
  | dropped : Forwarded
deriving DecidableEq, Repr

/-- The fate of the value `v` sent to subscription `id`'s internal
endpoint by a publish fan-out goroutine: if the forwarding context is
cancelled the send is abandoned; otherwise `castAndForward` asserts
`v.(T)` and either forwards `v` unchanged or panics. -/
def forwardOutcome (s : ScopeState) (id : Nat) (v : AnyVal) : Forwarded :=
  match lookupSub id s.subs with
  | none => .dropped
  | some sr =>
      if sr.cancelled then .dropped
      else if typeAssert sr.subType v then .value v
      else .panicMismatch

/-- `PublishToScope[T](ctx, e, val)`.  Computes `var zero T`, does
`e.subscribers.Load(zero)` — panicking while hashing an unhashable key —
and, if a subscriber set exists, ranges over it sending `val` (converted
to `any`, the identity in this model) to every registered endpoint.
Returns the list of per-subscriber forwarding outcomes (or the hash
panic, as `Except.error`) paired with the resulting scope state, which is
always the input state: the publish path performs no store. -/
def publishToScope (T : GoType) (v : AnyVal) (s : ScopeState) :
    Except String (List (Nat × Forwarded)) × ScopeState :=
  let zero := zeroAny T
  if hashableVal zero then
    match lookupKey zero s.registry with
    | none => (.ok [], s)
    | some ids => (.ok (ids.map (fun id => (id, forwardOutcome s id v))), s)
  else
    (.error "hash of unhashable type", s)

/-- The `unsub` closure returned by `SubscribeToScope[T]`:
`subMap.Delete(id)` on the subscriber set it captured (the one under key
`zeroAny T`), then `cancel()` on the derived context. -/
def unsub (T : GoType) (id : Nat) (s : ScopeState) : ScopeState :=
  { s with registry := removeReg (zeroAny T) id s.registry,
           subs := setCancelled id s.subs }

/-- The caller's context (the `ctx` passed to `SubscribeToScope`) firing:
the derived context is cancelled, and nothing else happens — in
particular the registry entry is not touched. -/
def parentCancel (id : Nat) (s : ScopeState) : ScopeState :=
  { s with subs := setCancelled id s.subs }

/-- Subscription `id`'s forwarding goroutine taking the `<-ctx.Done()`
branch and running `defer close(out)`; a no-op unless the derived context
is cancelled. -/
def forwarderObserveCancel (id : Nat) (s : ScopeState) : ScopeState :=
  { s with subs := observeCancelClose id s.subs }

/-! ## Concrete types used in the test suite (`pubsub_test.go`) -/

/-- Go's built-in `error` interface. -/
def errIface : GoType := .interfaceT "error" ["Error"]

/-- The test suite's `testInterface` (one method, `Test`). -/
def testIface : GoType := .interfaceT "testInterface" ["Test"]

/-- The test suite's `testImpl` struct, whose method set contains `Test`,
so it implements `testInterface`. -/
def testImpl : GoType := .structT "testImpl" .nil ["Test"]

/-! ## Registry lemmas -/

theorem lookupKey_insertReg_self (k : AnyVal) (id : Nat)
    (r : List (AnyVal × List Nat)) :
    lookupKey k (insertReg k id r) = some (id :: (lookupKey k r).getD []) := by
  induction r with
  | nil => simp [insertReg, lookupKey]
  | cons p r ih =>
    obtain ⟨k', l⟩ := p
    by_cases h : k' = k
    · subst h; simp [insertReg, lookupKey]
    · simp [insertReg, lookupKey, h, ih]

theorem lookupKey_insertReg_ne (k k' : AnyVal) (id : Nat)
    (r : List (AnyVal × List Nat)) (h : k' ≠ k) :
    lookupKey k' (insertReg k id r) = lookupKey k' r := by
  induction r with
  | nil =>
    have h' : ¬k = k' := fun hk => h hk.symm
    simp [insertReg, lookupKey, h']
  | cons p r ih =>
    obtain ⟨k'', l⟩ := p
    by_cases h2 : k'' = k
    · subst h2
      simp only [insertReg, if_pos rfl, lookupKey]
      rw [if_neg (fun hk => h hk.symm), if_neg (fun hk => h hk.symm)]
    · simp [insertReg, lookupKey, h2, ih]

theorem lookupKey_removeReg_self (k : AnyVal) (id : Nat)
    (r : List (AnyVal × List Nat)) :
    lookupKey k (removeReg k id r) =
      (lookupKey k r).map (fun l => l.filter (fun i => i ≠ id)) := by
  induction r with
  | nil => simp [removeReg, lookupKey]
  | cons p r ih =>
    obtain ⟨k', l⟩ := p
    by_cases h : k' = k
    · subst h; simp [removeReg, lookupKey]
    · simp [removeReg, lookupKey, h, ih]

theorem lookupKey_mem (k : AnyVal) (l : List Nat)
    (r : List (AnyVal × List Nat)) (h : lookupKey k r = some l) :
    (k, l) ∈ r := by
  induction r with
  | nil => simp [lookupKey] at h
  | cons p r ih =>
    obtain ⟨k', l'⟩ := p
    by_cases hk : k' = k
    · subst hk
      simp only [lookupKey, if_true, eq_self_iff_true, Option.some.injEq] at h
      subst h
      exact List.mem_cons_self _ _
    · simp only [lookupKey, if_neg hk] at h
      exact List.mem_cons_of_mem _ (ih h)

theorem removeReg_idem (k : AnyVal) (id : Nat) (r : List (AnyVal × List Nat)) :
    removeReg k id (removeReg k id r) = removeReg k id r := by
  induction r with
  | nil => simp [removeReg]
  | cons p r ih =>
    obtain ⟨k', l⟩ := p
    by_cases h : k' = k
    · subst h
      simp [removeReg, List.filter_filter]
    · simp [removeReg, h, ih]

/-! ## Subscription-record lemmas -/

theorem lookupSub_setCancelled_self (id : Nat) (subs : List (Nat × SubRec)) :
    lookupSub id (setCancelled id subs) =
      (lookupSub id subs).map (fun sr => { sr with cancelled := true }) := by
  induction subs with
  | nil => simp [setCancelled, lookupSub]
  | cons p subs ih =>
    obtain ⟨i, sr⟩ := p
    by_cases h : i = id
    · subst h; simp [setCancelled, lookupSub]
    · simp [setCancelled, lookupSub, h, ih]

theorem lookupSub_observeCancelClose_self (id : Nat) (subs : List (Nat × SubRec)) :
    lookupSub id (observeCancelClose id subs) =
      (lookupSub id subs).map
        (fun sr => if sr.cancelled then { sr with chClosed := true } else sr) := by
  induction subs with
  | nil => simp [observeCancelClose, lookupSub]
  | cons p subs ih =>
    obtain ⟨i, sr⟩ := p
    by_cases h : i = id
    · subst h
      by_cases hc : sr.cancelled = true
      · simp [observeCancelClose, lookupSub, hc]
      · simp [observeCancelClose, lookupSub, hc]
    · simp [observeCancelClose, lookupSub, h, ih]

theorem setCancelled_idem (id : Nat) (subs : List (Nat × SubRec)) :
    setCancelled id (setCancelled id subs) = setCancelled id subs := by
  induction subs with
  | nil => simp [setCancelled]
  | cons p subs ih =>
    obtain ⟨i, sr⟩ := p
    by_cases h : i = id
    · subst h; simp [setCancelled, ih]
    · simp [setCancelled, h, ih]

/-! ## Claim theorems -/

/-- Claim C4 (counterexample): publishing a slice-typed value on a fresh
scope — which has no subscriber set for the slice type — panics while
hashing the unhashable zero-value key in `e.subscribers.Load(zero)`, so
publishing to a subscriber-less type is *not* panic-free for every type. -/
theorem publish_unhashable_panics_cex :
    lookupKey (zeroAny (.sliceT .boolT)) newEventScope.registry = none ∧
    publishToScope (.sliceT .boolT) (.mk (.sliceT .boolT) (.sliceV 1))
        newEventScope =
      (.error "hash of unhashable type", newEventScope) := by
  constructor
  · rfl
  · rfl

/-- Claim C4 (amended): for every type `T` whose zero-value key is
hashable, publishing on a scope with no subscriber set for `T` returns
normally with no deliveries and leaves the scope state — in particular
the registry — unchanged. -/
theorem publish_no_subscribers_noop (T : GoType) (v : AnyVal) (s : ScopeState)
    (hhash : hashableVal (zeroAny T) = true)
    (hnone : lookupKey (zeroAny T) s.registry = none) :
    publishToScope T v s = (.ok [], s) := by
  simp [publishToScope, hhash, hnone]

/-- Witness for `publish_no_subscribers_noop` at `T = bool` on a fresh
scope. -/
theorem publish_no_subscribers_noop_witness :
    hashableVal (zeroAny .boolT) = true ∧
    lookupKey (zeroAny .boolT) newEventScope.registry = none ∧
    publishToScope .boolT (.mk .boolT (.boolV true)) newEventScope =
      (.ok [], newEventScope) :=
  ⟨by decide, by decide,
    publish_no_subscribers_noop .boolT (.mk .boolT (.boolV true)) newEventScope
      (by decide) (by decide)⟩

/-- Claim C5: subscribing to a type whose zero-value key is not hashable
(slices, maps, functions) fails fast with the hash panic raised inside
`LoadOrStore`, before any entry is inserted: the state returned with the
panic is exactly the input state, so the registry is unchanged. -/
theorem subscribe_unhashable_fails_fast (T : GoType) (s : ScopeState)
    (h : hashableVal (zeroAny T) = false) :
    subscribeToScope T s = (.error "hash of unhashable type", s) := by
  simp [subscribeToScope, h]

/-- Witness for `subscribe_unhashable_fails_fast` at a slice type, a map
type and a function type, on a fresh scope. -/
theorem subscribe_unhashable_fails_fast_witness :
    (hashableVal (zeroAny (.sliceT .boolT)) = false ∧
      subscribeToScope (.sliceT .boolT) newEventScope =
        (.error "hash of unhashable type", newEventScope)) ∧
    (hashableVal (zeroAny (.mapT .intT .intT)) = false ∧
      subscribeToScope (.mapT .intT .intT) newEventScope =
        (.error "hash of unhashable type", newEventScope)) ∧
    (hashableVal (zeroAny .funcT) = false ∧
      subscribeToScope .funcT newEventScope =
        (.error "hash of unhashable type", newEventScope)) :=
  ⟨⟨by decide, subscribe_unhashable_fails_fast (.sliceT .boolT) newEventScope (by decide)⟩,
   ⟨by decide, subscribe_unhashable_fails_fast (.mapT .intT .intT) newEventScope (by decide)⟩,
   ⟨by decide, subscribe_unhashable_fails_fast .funcT newEventScope (by decide)⟩⟩

/-- Claim C9: the `unsub` closure is idempotent and absorbs the external
cancellation signal: running it twice is the same state transformation as
running it once, and running it before or after the caller's context
fires yields exactly the state of running it alone.  (It is a total
function: no error and no panic on repeated calls.) -/
theorem unsub_idempotent_and_commutes (T : GoType) (id : Nat) (s : ScopeState) :
    unsub T id (unsub T id s) = unsub T id s ∧
    unsub T id (parentCancel id s) = unsub T id s ∧
    parentCancel id (unsub T id s) = unsub T id s := by
  refine ⟨?_, ?_, ?_⟩ <;>
    simp [unsub, parentCancel, removeReg_idem, setCancelled_idem]

/-- Claim C10: with an active subscriber of an interface type `I`,
publishing the nil interface value explicitly under the type parameter
`I` is looked up under `I`'s key (the nil zero value), reaches the
subscriber's internal endpoint, and the forwarding goroutine's type
assertion `nil.(I)` fails, hitting `panic("mismatched type")` instead of
delivering a value. -/
theorem publish_nil_interface_panics (I : GoType) (s : ScopeState)
    (hI : isInterface I = true) :
    ∃ id s1 rest,
      subscribeToScope I s = (.ok id, s1) ∧
      publishToScope I .nilA s1 =
        (.ok ((id, Forwarded.panicMismatch) :: rest), s1) := by
  have hz : zeroAny I = .nilA := by simp [zeroAny, hI]
  refine ⟨s.nextId,
    { registry := insertReg .nilA s.nextId s.registry,
      subs := (s.nextId, { subType := I, cancelled := false, chClosed := false })
        :: s.subs,
      nextId := s.nextId + 1 },
    ((lookupKey .nilA s.registry).getD []).map
      (fun i => (i,
        forwardOutcome
          { registry := insertReg .nilA s.nextId s.registry,
            subs := (s.nextId, { subType := I, cancelled := false, chClosed := false })
              :: s.subs,
            nextId := s.nextId + 1 } i .nilA)),
    ?_, ?_⟩
  · simp [subscribeToScope, hz, hashableVal]
  · have hlook := lookupKey_insertReg_self .nilA s.nextId s.registry
    have hfwd :
        forwardOutcome
          { registry := insertReg .nilA s.nextId s.registry,
            subs := (s.nextId, { subType := I, cancelled := false, chClosed := false })
              :: s.subs,
            nextId := s.nextId + 1 } s.nextId .nilA = .panicMismatch := by
      simp [forwardOutcome, lookupSub, typeAssert]
    simp [publishToScope, hz, hashableVal, hlook, hfwd]

/-- Witness for `publish_nil_interface_panics` at the `error` interface
on a fresh scope. -/
theorem publish_nil_interface_panics_witness :
    isInterface errIface = true ∧
    ∃ id s1 rest,
      subscribeToScope errIface newEventScope = (.ok id, s1) ∧
      publishToScope errIface .nilA s1 =
        (.ok ((id, Forwarded.panicMismatch) :: rest), s1) :=
  ⟨by decide, publish_nil_interface_panics errIface newEventScope (by decide)⟩

/-- Claim C1 (counterexample): `error` is a comparable type (its zero
value, the nil interface, is hashable) and `nil` is a value of type
`error`, yet subscribing to `error` and publishing `nil` as an `error`
does not deliver `nil` on the subscription's channel: the forwarding
goroutine panics instead, so delivery does not hold for *every* value of
every comparable type. -/
theorem subscribe_publish_nil_error_cex :
    hashableVal (zeroAny errIface) = true ∧
    hasType errIface AnyVal.nilA = true ∧
    subscribeToScope errIface newEventScope =
      (.ok 0,
       { registry := [(.nilA, [0])],
         subs := [(0, { subType := errIface, cancelled := false, chClosed := false })],
         nextId := 1 }) ∧
    publishToScope errIface .nilA
      { registry := [(.nilA, [0])],
        subs := [(0, { subType := errIface, cancelled := false, chClosed := false })],
        nextId := 1 } =
      (.ok [(0, Forwarded.panicMismatch)],
       { registry := [(.nilA, [0])],
         subs := [(0, { subType := errIface, cancelled := false, chClosed := false })],
         nextId := 1 }) ∧
    ∀ w : AnyVal, Forwarded.panicMismatch ≠ Forwarded.value w :=
  ⟨by decide, by decide, rfl, rfl,
   fun _ h => Forwarded.noConfusion h⟩

/-- Claim C1 (amended): for every type `T` with a hashable zero-value
key, every scope state, and every value `v` of type `T` *other than a nil
interface value*: subscribing to `T` and then publishing `v` under `T`
delivers exactly the value `v`, unmodified, on the new subscription's
channel (the payload — including a pointer's identity — is preserved). -/
theorem subscribe_publish_delivers_exact (T : GoType) (v : AnyVal)
    (s : ScopeState)
    (hcmp : hashableVal (zeroAny T) = true)
    (hv : hasType T v = true) (hnil : v ≠ .nilA) :
    ∃ id s1 rest,
      subscribeToScope T s = (.ok id, s1) ∧
      publishToScope T v s1 = (.ok ((id, Forwarded.value v) :: rest), s1) := by
  have hassert : typeAssert T v = true := by
    by_cases hI : isInterface T = true
    · have hv' := hv
      simp only [hasType, if_pos hI, Bool.or_eq_true, beq_iff_eq] at hv'
      rcases hv' with h1 | h1
      · exact absurd h1 hnil
      · exact h1
    · simpa only [hasType, if_neg hI] using hv
  refine ⟨s.nextId,
    { registry := insertReg (zeroAny T) s.nextId s.registry,
      subs := (s.nextId, { subType := T, cancelled := false, chClosed := false })
        :: s.subs,
      nextId := s.nextId + 1 },
    ((lookupKey (zeroAny T) s.registry).getD []).map
      (fun i => (i,
        forwardOutcome
          { registry := insertReg (zeroAny T) s.nextId s.registry,
            subs := (s.nextId, { subType := T, cancelled := false, chClosed := false })
              :: s.subs,
            nextId := s.nextId + 1 } i v)),
    ?_, ?_⟩
  · simp [subscribeToScope, hcmp]
  · have hlook := lookupKey_insertReg_self (zeroAny T) s.nextId s.registry
    have hfwd :
        forwardOutcome
          { registry := insertReg (zeroAny T) s.nextId s.registry,
            subs := (s.nextId, { subType := T, cancelled := false, chClosed := false })
              :: s.subs,
            nextId := s.nextId + 1 } s.nextId v = .value v := by
      simp [forwardOutcome, lookupSub, hassert]
    simp [publishToScope, hcmp, hlook, hfwd]

/-- Witness for `subscribe_publish_delivers_exact`: subscribe to `int` on
a fresh scope, publish `42`, receive exactly `42`; and subscribe to
`*string`, publish a pointer (address 7), receive the identical pointer. -/
theorem subscribe_publish_delivers_exact_witness :
    (hashableVal (zeroAny .intT) = true ∧
      hasType .intT (.mk .intT (.intV 42)) = true ∧
      (.mk .intT (.intV 42) : AnyVal) ≠ .nilA ∧
      ∃ id s1 rest,
        subscribeToScope .intT newEventScope = (.ok id, s1) ∧
        publishToScope .intT (.mk .intT (.intV 42)) s1 =
          (.ok ((id, Forwarded.value (.mk .intT (.intV 42))) :: rest), s1)) ∧
    (hashableVal (zeroAny (.ptrT .stringT)) = true ∧
      hasType (.ptrT .stringT) (.mk (.ptrT .stringT) (.ptrV 7)) = true ∧
      (.mk (.ptrT .stringT) (.ptrV 7) : AnyVal) ≠ .nilA ∧
      ∃ id s1 rest,
        subscribeToScope (.ptrT .stringT) newEventScope = (.ok id, s1) ∧
        publishToScope (.ptrT .stringT) (.mk (.ptrT .stringT) (.ptrV 7)) s1 =
          (.ok ((id, Forwarded.value (.mk (.ptrT .stringT) (.ptrV 7))) :: rest),
           s1)) :=
  ⟨⟨by decide, by decide, by decide,
    subscribe_publish_delivers_exact .intT (.mk .intT (.intV 42)) newEventScope
      (by decide) (by decide) (by decide)⟩,
   ⟨by decide, by decide, by decide,
    subscribe_publish_delivers_exact (.ptrT .stringT)
      (.mk (.ptrT .stringT) (.ptrV 7)) newEventScope
      (by decide) (by decide) (by decide)⟩⟩

/-- Claim C2: with a subscriber of interface `I` and a subscriber of a
concrete type `C` implementing `I` on the same scope, publishing a `C`
value without selecting the type parameter routes under `C`'s type key
and reaches only the `C` subscriber — the `I` subscriber never observes
it — while publishing the same value explicitly as `I` routes under `I`'s
key and delivers it to the `I` subscriber. -/
theorem interface_key_explicit_delivery (I C : GoType) (p : Payload)
    (hI : isInterface I = true) (hC : isInterface C = false)
    (himpl : hasMethods C (ifaceMethods I) = true)
    (hcmp : comparable C = true) :
    ∃ idI s1 idC s2,
      subscribeToScope I newEventScope = (.ok idI, s1) ∧
      subscribeToScope C s1 = (.ok idC, s2) ∧
      publishToScope C (.mk C p) s2 =
        (.ok [(idC, Forwarded.value (.mk C p))], s2) ∧
      publishToScope I (.mk C p) s2 =
        (.ok [(idI, Forwarded.value (.mk C p))], s2) := by
  have hz : zeroAny I = .nilA := by simp [zeroAny, hI]
  have hzC : zeroAny C = .mk C (zeroPayload C) := by simp [zeroAny, hC]
  have hkeys : AnyVal.nilA ≠ AnyVal.mk C (zeroPayload C) := by
    intro h; exact AnyVal.noConfusion h
  refine ⟨0,
    { registry := [(.nilA, [0])],
      subs := [(0, { subType := I, cancelled := false, chClosed := false })],
      nextId := 1 },
    1,
    { registry := [(.nilA, [0]), (.mk C (zeroPayload C), [1])],
      subs := [(1, { subType := C, cancelled := false, chClosed := false }),
               (0, { subType := I, cancelled := false, chClosed := false })],
      nextId := 2 },
    ?_, ?_, ?_, ?_⟩
  · simp [subscribeToScope, hz, hashableVal, newEventScope, insertReg]
  · simp [subscribeToScope, hzC, hashableVal, hcmp, insertReg, hkeys.symm]
  · simp [publishToScope, hzC, hashableVal, hcmp, lookupKey, hkeys.symm,
      forwardOutcome, lookupSub, typeAssert, hC]
  · simp [publishToScope, hz, hashableVal, lookupKey, forwardOutcome,
      lookupSub, typeAssert, hI, himpl]

/-- Witness for `interface_key_explicit_delivery` at the test suite's
`testInterface` and `testImpl`. -/
theorem interface_key_explicit_delivery_witness :
    isInterface testIface = true ∧ isInterface testImpl = false ∧
    hasMethods testImpl (ifaceMethods testIface) = true ∧
    comparable testImpl = true ∧
    ∃ idI s1 idC s2,
      subscribeToScope testIface newEventScope = (.ok idI, s1) ∧
      subscribeToScope testImpl s1 = (.ok idC, s2) ∧
      publishToScope testImpl (.mk testImpl (.structV .nil)) s2 =
        (.ok [(idC, Forwarded.value (.mk testImpl (.structV .nil)))], s2) ∧
      publishToScope testIface (.mk testImpl (.structV .nil)) s2 =
        (.ok [(idI, Forwarded.value (.mk testImpl (.structV .nil)))], s2) :=
  ⟨by decide, by decide, by decide, by decide,
   interface_key_explicit_delivery testIface testImpl (.structV .nil)
     (by decide) (by decide) (by decide) (by decide)⟩

/-- Claim C3 (counterexample): the distinct interface types `A` and `B`
derive the *same* registry key (both zero values are the nil interface),
and a value published under `B`'s key is looked up and delivered to a
subscription registered under `A`'s key — keys do not uniquely identify
types for pairs of distinct interface types. -/
theorem interface_keys_collide_cex :
    (GoType.interfaceT "A" [] ≠ GoType.interfaceT "B" []) ∧
    zeroAny (.interfaceT "A" []) = zeroAny (.interfaceT "B" []) ∧
    subscribeToScope (.interfaceT "A" []) newEventScope =
      (.ok 0,
       { registry := [(.nilA, [0])],
         subs := [(0, { subType := .interfaceT "A" [], cancelled := false,
                        chClosed := false })],
         nextId := 1 }) ∧
    publishToScope (.interfaceT "B" []) (.mk .intT (.intV 7))
      { registry := [(.nilA, [0])],
        subs := [(0, { subType := .interfaceT "A" [], cancelled := false,
                       chClosed := false })],
        nextId := 1 } =
      (.ok [(0, Forwarded.value (.mk .intT (.intV 7)))],
       { registry := [(.nilA, [0])],
         subs := [(0, { subType := .interfaceT "A" [], cancelled := false,
                        chClosed := false })],
         nextId := 1 }) := by
  refine ⟨by decide, by decide, rfl, rfl⟩

/-- Claim C3 (amended): the registry key uniquely identifies the type as
long as at least one of the two types is not an interface type: two
distinct types that are not both interfaces always derive distinct keys.
(All interface types share the nil key, as the counterexample shows.) -/
theorem zeroAny_injective_off_interfaces (T1 T2 : GoType) (h : T1 ≠ T2)
    (hcon : isInterface T1 = false ∨ isInterface T2 = false) :
    zeroAny T1 ≠ zeroAny T2 := by
  intro hz
  cases hb1 : isInterface T1 <;> cases hb2 : isInterface T2 <;>
    simp [zeroAny, hb1, hb2] at hz
  · exact h hz.1
  · rcases hcon with hc | hc
    · rw [hb1] at hc; cases hc
    · rw [hb2] at hc; cases hc

/-- Witness for `zeroAny_injective_off_interfaces` at `int` and `bool`. -/
theorem zeroAny_injective_off_interfaces_witness :
    (GoType.intT ≠ GoType.boolT) ∧ isInterface .intT = false ∧
    zeroAny .intT ≠ zeroAny .boolT :=
  ⟨by decide, by decide,
   zeroAny_injective_off_interfaces .intT .boolT (by decide)
     (Or.inl (by decide))⟩

/-- Claim C6 (counterexample): for an `int` subscription on a fresh
scope, the teardown reached by the subscribe-time context firing
(`parentCancel` then the forwarder observing it) leaves the subscription's
entry in the subscriber set (`some [0]`), whereas `unsub` removes it
(`some []`): the two teardown paths do not produce the same registry
state, so they are not equivalent. -/
theorem cancel_path_keeps_entry_cex :
    subscribeToScope .intT newEventScope =
      (.ok 0,
       { registry := [(.mk .intT (.intV 0), [0])],
         subs := [(0, { subType := .intT, cancelled := false, chClosed := false })],
         nextId := 1 }) ∧
    lookupKey (zeroAny .intT)
      (forwarderObserveCancel 0 (parentCancel 0
        { registry := [(.mk .intT (.intV 0), [0])],
          subs := [(0, { subType := .intT, cancelled := false, chClosed := false })],
          nextId := 1 })).registry = some [0] ∧
    lookupKey (zeroAny .intT)
      (forwarderObserveCancel 0 (unsub .intT 0
        { registry := [(.mk .intT (.intV 0), [0])],
          subs := [(0, { subType := .intT, cancelled := false, chClosed := false })],
          nextId := 1 })).registry = some [] ∧
    forwarderObserveCancel 0 (parentCancel 0
      { registry := [(.mk .intT (.intV 0), [0])],
        subs := [(0, { subType := .intT, cancelled := false, chClosed := false })],
        nextId := 1 }) ≠
    forwarderObserveCancel 0 (unsub .intT 0
      { registry := [(.mk .intT (.intV 0), [0])],
        subs := [(0, { subType := .intT, cancelled := false, chClosed := false })],
        nextId := 1 }) :=
  ⟨rfl, rfl, rfl, by decide⟩

/-- Claim C6 (amended): both teardown paths cancel the derived context
and close the external typed channel once the forwarding goroutine
observes the cancellation; but only `unsub` removes the subscription's
entry from the subscriber set — the context-cancellation path leaves the
registry untouched. -/
theorem teardown_paths_effects (T : GoType) (id : Nat) (s : ScopeState)
    (sr : SubRec) (hsub : lookupSub id s.subs = some sr) :
    (forwarderObserveCancel id (parentCancel id s)).registry = s.registry ∧
    lookupSub id (forwarderObserveCancel id (parentCancel id s)).subs =
      some { sr with cancelled := true, chClosed := true } ∧
    lookupSub id (forwarderObserveCancel id (unsub T id s)).subs =
      some { sr with cancelled := true, chClosed := true } ∧
    (∀ l, lookupKey (zeroAny T)
        (forwarderObserveCancel id (unsub T id s)).registry = some l →
      id ∉ l) := by
  have hlife :
      lookupSub id (observeCancelClose id (setCancelled id s.subs)) =
        some { sr with cancelled := true, chClosed := true } := by
    rw [lookupSub_observeCancelClose_self, lookupSub_setCancelled_self, hsub]
    simp
  refine ⟨rfl, hlife, hlife, ?_⟩
  intro l hl
  have hreg : (forwarderObserveCancel id (unsub T id s)).registry =
      removeReg (zeroAny T) id s.registry := rfl
  rw [hreg, lookupKey_removeReg_self] at hl
  rcases Option.map_eq_some'.mp hl with ⟨l0, -, hfil⟩
  rw [← hfil]
  simp [List.mem_filter]

/-- Witness for `teardown_paths_effects` on the state of an `int`
subscription on a fresh scope. -/
theorem teardown_paths_effects_witness :
    lookupSub 0
      ({ registry := [(.mk .intT (.intV 0), [0])],
         subs := [(0, { subType := .intT, cancelled := false, chClosed := false })],
         nextId := 1 } : ScopeState).subs =
      some { subType := .intT, cancelled := false, chClosed := false } ∧
    ((forwarderObserveCancel 0 (parentCancel 0
        { registry := [(.mk .intT (.intV 0), [0])],
          subs := [(0, { subType := .intT, cancelled := false, chClosed := false })],
          nextId := 1 })).registry =
      ({ registry := [(.mk .intT (.intV 0), [0])],
         subs := [(0, { subType := .intT, cancelled := false, chClosed := false })],
         nextId := 1 } : ScopeState).registry ∧
     lookupSub 0 (forwarderObserveCancel 0 (parentCancel 0
        { registry := [(.mk .intT (.intV 0), [0])],
          subs := [(0, { subType := .intT, cancelled := false, chClosed := false })],
          nextId := 1 })).subs =
      some { subType := .intT, cancelled := true, chClosed := true } ∧
     lookupSub 0 (forwarderObserveCancel 0 (unsub .intT 0
        { registry := [(.mk .intT (.intV 0), [0])],
          subs := [(0, { subType := .intT, cancelled := false, chClosed := false })],
          nextId := 1 })).subs =
      some { subType := .intT, cancelled := true, chClosed := true } ∧
     (∀ l, lookupKey (zeroAny .intT)
         (forwarderObserveCancel 0 (unsub .intT 0
           { registry := [(.mk .intT (.intV 0), [0])],
             subs := [(0, { subType := .intT, cancelled := false, chClosed := false })],
             nextId := 1 })).registry = some l →
       0 ∉ l)) :=
  ⟨by decide,
   teardown_paths_effects .intT 0
     { registry := [(.mk .intT (.intV 0), [0])],
       subs := [(0, { subType := .intT, cancelled := false, chClosed := false })],
       nextId := 1 }
     { subType := .intT, cancelled := false, chClosed := false } (by decide)⟩

/-- Claim C7: after `unsub` runs and the forwarding goroutine observes
the cancelled context, the subscription's external channel is closed (a
reader sees end-of-stream), and no subsequent publish — of any type, any
value — ever produces a delivery on that subscription's channel. -/
theorem unsub_closes_channel_and_stops_delivery (T : GoType) (id : Nat)
    (s : ScopeState) (sr : SubRec) (hsub : lookupSub id s.subs = some sr) :
    lookupSub id (forwarderObserveCancel id (unsub T id s)).subs =
      some { sr with cancelled := true, chClosed := true } ∧
    ∀ U w outs s2,
      publishToScope U w (forwarderObserveCancel id (unsub T id s)) =
        (.ok outs, s2) →
      ∀ x, (id, Forwarded.value x) ∉ outs := by
  have hsub' :
      lookupSub id (forwarderObserveCancel id (unsub T id s)).subs =
        some { sr with cancelled := true, chClosed := true } := by
    have h0 : (forwarderObserveCancel id (unsub T id s)).subs =
        observeCancelClose id (setCancelled id s.subs) := rfl
    rw [h0, lookupSub_observeCancelClose_self, lookupSub_setCancelled_self, hsub]
    simp
  refine ⟨hsub', ?_⟩
  intro U w outs s2 hpub x hmem
  have hfwd : forwardOutcome (forwarderObserveCancel id (unsub T id s)) id w =
      .dropped := by
    simp [forwardOutcome, hsub']
  simp only [publishToScope] at hpub
  by_cases hh : hashableVal (zeroAny U) = true
  · rw [if_pos hh] at hpub
    cases hlk : lookupKey (zeroAny U)
        (forwarderObserveCancel id (unsub T id s)).registry with
    | none =>
      rw [hlk] at hpub
      simp only [Prod.mk.injEq, Except.ok.injEq] at hpub
      rw [← hpub.1] at hmem
      simp at hmem
    | some ids =>
      rw [hlk] at hpub
      simp only [Prod.mk.injEq, Except.ok.injEq] at hpub
      rw [← hpub.1] at hmem
      rcases List.mem_map.mp hmem with ⟨i, -, heq⟩
      have hieq : i = id := congrArg Prod.fst heq
      rw [hieq] at heq
      have hout : forwardOutcome (forwarderObserveCancel id (unsub T id s)) id w
          = Forwarded.value x := congrArg Prod.snd heq
      rw [hfwd] at hout
      exact Forwarded.noConfusion hout
  · rw [if_neg hh] at hpub
    exact Except.noConfusion (congrArg Prod.fst hpub)

/-- Witness for `unsub_closes_channel_and_stops_delivery` on the state of
an `int` subscription on a fresh scope. -/
theorem unsub_closes_channel_and_stops_delivery_witness :
    lookupSub 0
      ({ registry := [(.mk .intT (.intV 0), [0])],
         subs := [(0, { subType := .intT, cancelled := false, chClosed := false })],
         nextId := 1 } : ScopeState).subs =
      some { subType := .intT, cancelled := false, chClosed := false } ∧
    (lookupSub 0 (forwarderObserveCancel 0 (unsub .intT 0
        { registry := [(.mk .intT (.intV 0), [0])],
          subs := [(0, { subType := .intT, cancelled := false, chClosed := false })],
          nextId := 1 })).subs =
      some { subType := .intT, cancelled := true, chClosed := true } ∧
     ∀ U w outs s2,
       publishToScope U w (forwarderObserveCancel 0 (unsub .intT 0
         { registry := [(.mk .intT (.intV 0), [0])],
           subs := [(0, { subType := .intT, cancelled := false, chClosed := false })],
           nextId := 1 })) = (.ok outs, s2) →
       ∀ x, (0, Forwarded.value x) ∉ outs) :=
  ⟨by decide,
   unsub_closes_channel_and_stops_delivery .intT 0
     { registry := [(.mk .intT (.intV 0), [0])],
       subs := [(0, { subType := .intT, cancelled := false, chClosed := false })],
       nextId := 1 }
     { subType := .intT, cancelled := false, chClosed := false } (by decide)⟩

/-- Claim C8 (counterexample): the "mismatched type" panic branch of
`castAndForward` is reachable through ordinary type-keyed routing: an
`int` value published explicitly under interface type `B` (which `int`
implements) is routed to the subscriber of the distinct interface type
`A` (the keys collide on nil) whose assertion fails, so the forwarding
goroutine panics. -/
theorem mismatch_panic_reachable_cex :
    hasType (.interfaceT "B" []) (.mk .intT (.intV 3)) = true ∧
    subscribeToScope (.interfaceT "A" ["Foo"]) newEventScope =
      (.ok 0,
       { registry := [(.nilA, [0])],
         subs := [(0, { subType := .interfaceT "A" ["Foo"], cancelled := false,
                        chClosed := false })],
         nextId := 1 }) ∧
    publishToScope (.interfaceT "B" []) (.mk .intT (.intV 3))
      { registry := [(.nilA, [0])],
        subs := [(0, { subType := .interfaceT "A" ["Foo"], cancelled := false,
                       chClosed := false })],
        nextId := 1 } =
      (.ok [(0, Forwarded.panicMismatch)],
       { registry := [(.nilA, [0])],
         subs := [(0, { subType := .interfaceT "A" ["Foo"], cancelled := false,
                        chClosed := false })],
         nextId := 1 }) :=
  ⟨by decide, rfl, rfl⟩

/-- Claim C8 (amended): for a subscription to a *concrete* (non-interface)
type, type-keyed routing does guarantee that every value its endpoint
receives from a well-typed publish passes the assertion, so the
"mismatched type" panic branch is unreachable: no publish outcome for
such a subscription is ever `panicMismatch`.  (For interface-typed
subscriptions the branch is reachable, as the counterexample shows.) -/
theorem concrete_subscription_no_mismatch (U : GoType) (v : AnyVal)
    (s : ScopeState) (id : Nat) (sr : SubRec)
    (hv : hasType U v = true)
    (hsub : lookupSub id s.subs = some sr)
    (hconc : isInterface sr.subType = false)
    (hreg : ∀ p ∈ s.registry, id ∈ p.2 → p.1 = zeroAny sr.subType) :
    ∀ outs s2, publishToScope U v s = (.ok outs, s2) →
      (id, Forwarded.panicMismatch) ∉ outs := by
  intro outs s2 hpub hmem
  simp only [publishToScope] at hpub
  by_cases hh : hashableVal (zeroAny U) = true
  · rw [if_pos hh] at hpub
    cases hlk : lookupKey (zeroAny U) s.registry with
    | none =>
      rw [hlk] at hpub
      simp only [Prod.mk.injEq, Except.ok.injEq] at hpub
      rw [← hpub.1] at hmem
      simp at hmem
    | some ids =>
      rw [hlk] at hpub
      simp only [Prod.mk.injEq, Except.ok.injEq] at hpub
      rw [← hpub.1] at hmem
      rcases List.mem_map.mp hmem with ⟨i, hi, heq⟩
      have hieq : i = id := congrArg Prod.fst heq
      rw [hieq] at heq hi
      have hout : forwardOutcome s id v = Forwarded.panicMismatch :=
        congrArg Prod.snd heq
      have hkey : zeroAny U = zeroAny sr.subType :=
        hreg (zeroAny U, ids) (lookupKey_mem _ _ _ hlk) hi
      have hUconc : isInterface U = false := by
        cases hbU : isInterface U
        · rfl
        · exfalso
          have h1 : zeroAny U = .nilA := by simp [zeroAny, hbU]
          have h2 : zeroAny sr.subType =
              .mk sr.subType (zeroPayload sr.subType) := by
            simp [zeroAny, hconc]
          rw [h1, h2] at hkey
          exact AnyVal.noConfusion hkey
      have hUeq : U = sr.subType := by
        have h1 : zeroAny U = .mk U (zeroPayload U) := by
          simp [zeroAny, hUconc]
        have h2 : zeroAny sr.subType =
            .mk sr.subType (zeroPayload sr.subType) := by
          simp [zeroAny, hconc]
        rw [h1, h2] at hkey
        exact ((AnyVal.mk.injEq _ _ _ _).mp hkey).1
      have hassert : typeAssert sr.subType v = true := by
        rw [← hUeq]
        simpa [hasType, hUconc] using hv
      by_cases hc : sr.cancelled = true
      · simp [forwardOutcome, hsub, hc] at hout
      · simp [forwardOutcome, hsub, hc, hassert] at hout
  · rw [if_neg hh] at hpub
    exact Except.noConfusion (congrArg Prod.fst hpub)

/-- Witness for `concrete_subscription_no_mismatch` on the state of an
`int` subscription on a fresh scope, publishing the int `5`. -/
theorem concrete_subscription_no_mismatch_witness :
    hasType .intT (.mk .intT (.intV 5)) = true ∧
    lookupSub 0
      ({ registry := [(.mk .intT (.intV 0), [0])],
         subs := [(0, { subType := .intT, cancelled := false, chClosed := false })],
         nextId := 1 } : ScopeState).subs =
      some { subType := .intT, cancelled := false, chClosed := false } ∧
    (∀ outs s2,
      publishToScope .intT (.mk .intT (.intV 5))
        { registry := [(.mk .intT (.intV 0), [0])],
          subs := [(0, { subType := .intT, cancelled := false, chClosed := false })],
          nextId := 1 } = (.ok outs, s2) →
      (0, Forwarded.panicMismatch) ∉ outs) :=
  ⟨by decide, by decide,
   concrete_subscription_no_mismatch .intT (.mk .intT (.intV 5))
     { registry := [(.mk .intT (.intV 0), [0])],
       subs := [(0, { subType := .intT, cancelled := false, chClosed := false })],
       nextId := 1 }
     0 { subType := .intT, cancelled := false, chClosed := false }
     (by decide) (by decide) (by decide) (by decide)⟩

end PubSub
